import Mathlib

/-!
Shallow embedding of `iceoryx_utils/source/posix_wrapper/unix_domain_socket.cpp`
(class `iox::posix::UnixDomainSocket`).

Modelling conventions:
* Each POSIX system call performed by the code is replaced by an explicit
  oracle argument of type `CallResult`: `CallResult.ok v` models a call that
  returned a non-error value `v`, and `CallResult.fail en` models a call that
  returned the error sentinel (`ERROR_CODE`, i.e. `-1`) with `errno = en`.
  `cxx::makeSmartC` resets `errno` to `0` before the call, so a successful
  call always reports errno `0`; `hasErrors`/`getErrNum` below reproduce the
  semantics of `SmartC::hasErrors()` and `SmartC::getErrNum()` together with
  the per-call list of ignored errnos.
* Machine integers (`size_t`, `uint64_t` sizes and lengths) are modelled by
  `Nat`; file descriptors (`int32_t`) by `Int`. No arithmetic in the embedded
  code can overflow on the values the claims range over.
* errno numbers use the Linux (x86-64) values of the macros; note that on
  Linux `EAGAIN` and `EWOULDBLOCK` denote the same number.
* Diagnostic output to `std::cerr` is modelled where a claim needs it: the
  error translator returns the error kind paired with the optional diagnostic
  line it emits.
-/

/-- Linux errno value of `EACCES`. -/
def EACCES : Nat := 13

/-- Linux errno value of `EAFNOSUPPORT`. -/
def EAFNOSUPPORT : Nat := 97

/-- Linux errno value of `EINVAL`. -/
def EINVAL : Nat := 22

/-- Linux errno value of `EMFILE`. -/
def EMFILE : Nat := 24

/-- Linux errno value of `ENFILE`. -/
def ENFILE : Nat := 23

/-- Linux errno value of `ENOBUFS`. -/
def ENOBUFS : Nat := 105

/-- Linux errno value of `ENOMEM`. -/
def ENOMEM : Nat := 12

/-- Linux errno value of `EPROTONOSUPPORT`. -/
def EPROTONOSUPPORT : Nat := 93

/-- Linux errno value of `EADDRINUSE`. -/
def EADDRINUSE : Nat := 98

/-- Linux errno value of `EBADF`. -/
def EBADF : Nat := 9

/-- Linux errno value of `ENOTSOCK`. -/
def ENOTSOCK : Nat := 88

/-- Linux errno value of `EADDRNOTAVAIL`. -/
def EADDRNOTAVAIL : Nat := 99

/-- Linux errno value of `EFAULT`. -/
def EFAULT : Nat := 14

/-- Linux errno value of `ELOOP`. -/
def ELOOP : Nat := 40

/-- Linux errno value of `ENAMETOOLONG`. -/
def ENAMETOOLONG : Nat := 36

/-- Linux errno value of `ENOTDIR`. -/
def ENOTDIR : Nat := 20

/-- Linux errno value of `ENOENT`. -/
def ENOENT : Nat := 2

/-- Linux errno value of `EROFS`. -/
def EROFS : Nat := 30

/-- Linux errno value of `EIO`. -/
def EIO_errno : Nat := 5

/-- Linux errno value of `ENOPROTOOPT`. -/
def ENOPROTOOPT : Nat := 92

/-- Linux errno value of `ECONNREFUSED`. -/
def ECONNREFUSED : Nat := 111

/-- Linux errno value of `ECONNRESET`. -/
def ECONNRESET : Nat := 104

/-- Linux errno value of `EWOULDBLOCK`. -/
def EWOULDBLOCK : Nat := 11

/-- Linux errno value of `EAGAIN` (identical to `EWOULDBLOCK` on Linux). -/
def EAGAIN : Nat := 11

/-- The error taxonomy `iox::posix::IpcChannelError`
(from `iceoryx_utils/internal/posix_wrapper/ipc_channel.hpp`). -/
inductive IpcChannelError where
  | NOT_INITIALIZED
  | INVALID_CHANNEL_NAME
  | INVALID_ARGUMENTS
  | MAX_MESSAGE_SIZE_EXCEEDED
  | MESSAGE_TOO_LONG
  | ACCESS_DENIED
  | PROCESS_LIMIT
  | SYSTEM_LIMIT
  | OUT_OF_MEMORY
  | CHANNEL_ALREADY_EXISTS
  | INVALID_FILE_DESCRIPTOR
  | NO_SUCH_CHANNEL
  | CONNECTION_RESET_BY_PEER
  | I_O_ERROR
  | TIMEOUT
  | INTERNAL_LOGIC_ERROR
  | UNDEFINED
  deriving DecidableEq, Repr

/-- The endpoint role `iox::posix::IpcChannelSide`. -/
inductive IpcChannelSide where
  | SERVER
  | CLIENT
  deriving DecidableEq, Repr

/-- The channel mode `iox::posix::IpcChannelMode`. -/
inductive IpcChannelMode where
  | BLOCKING
  | NON_BLOCKING
  deriving DecidableEq, Repr

/-- Outcome of one POSIX call wrapped by `cxx::makeSmartC`:
either a non-error return value, or the `ERROR_CODE` return with the
captured errno. -/
inductive CallResult (α : Type) where
  | ok (val : α)
  | fail (errno : Nat)
  deriving DecidableEq, Repr

/-- `SmartC::hasErrors()` for a call made with the given list of ignored
errnos: true when the call returned `ERROR_CODE` and the errno is not in the
ignored list. -/
def hasErrors (ignored : List Nat) : CallResult α → Bool
  | CallResult.ok _ => false
  | CallResult.fail en => !(decide (en ∈ ignored))

/-- `SmartC::getErrNum()`: the captured errno of a failed call; `0` for a
successful call (`makeSmartC` resets `errno` to `0` before calling). -/
def getErrNum : CallResult α → Nat
  | CallResult.ok _ => 0
  | CallResult.fail en => en

/-- Return value of a successful call, with a default for the (unreachable
at use sites) failed case. -/
def CallResult.valueOr (d : α) : CallResult α → α
  | CallResult.ok v => v
  | CallResult.fail _ => d

/-- Modelled from the spec: the compile-time constants declared in
`unix_domain_socket.hpp`, which is not part of the excerpt. The spec only
states that `SHORTEST_VALID_NAME`, `LONGEST_VALID_NAME` and
`MAX_MESSAGE_SIZE` are compile-time constants, that the path prefix is a
constant directory string, and that the bound path must fit the platform
address structure's path field (`sizeof(sockaddr_un::sun_path)`); so they are
kept as parameters of the model. `UDS_NAME_CAPACITY` is the capacity of the
fixed-capacity string type `UdsName_t` (the target of
`append(TruncateToCapacity, ...)`). -/
structure Config where
  SHORTEST_VALID_NAME : Nat
  LONGEST_VALID_NAME : Nat
  MAX_MESSAGE_SIZE : Nat
  UDS_NAME_CAPACITY : Nat
  pathPrefixStr : String
  SUN_PATH_SIZE : Nat
  deriving Repr

/-- Modelled from the spec: the invalid-descriptor sentinel `INVALID_FD`
declared in the header (not in the excerpt); the spec calls it "the invalid
sentinel". Its concrete value is irrelevant to the claims. -/
def INVALID_FD : Int := -1

/-- The mutable state of one `iox::posix::UnixDomainSocket` instance
(members of the class and of its `DesignPattern::Creation` base). -/
structure UnixDomainSocket where
  m_name : String
  m_channelSide : IpcChannelSide
  m_sockfd : Int
  m_sockAddrPath : String
  m_isInitialized : Bool
  m_errorValue : IpcChannelError
  m_maxMessageSize : Nat
  deriving DecidableEq, Repr

/-- `UnixDomainSocket::createErrorFromErrnum` (lines 441-544): translate an
OS errno into an `IpcChannelError`. The second component is the diagnostic
line written to `std::cerr` (only the default branch writes one; it embeds
the endpoint name `m_name`). -/
def createErrorFromErrnum (m_name : String) (errnum : Nat) :
    IpcChannelError × Option String :=
  if errnum = EACCES then (IpcChannelError.ACCESS_DENIED, none)
  else if errnum = EAFNOSUPPORT then (IpcChannelError.INVALID_ARGUMENTS, none)
  else if errnum = EINVAL then (IpcChannelError.INVALID_ARGUMENTS, none)
  else if errnum = EMFILE then (IpcChannelError.PROCESS_LIMIT, none)
  else if errnum = ENFILE then (IpcChannelError.SYSTEM_LIMIT, none)
  else if errnum = ENOBUFS then (IpcChannelError.OUT_OF_MEMORY, none)
  else if errnum = ENOMEM then (IpcChannelError.OUT_OF_MEMORY, none)
  else if errnum = EPROTONOSUPPORT then (IpcChannelError.INVALID_ARGUMENTS, none)
  else if errnum = EADDRINUSE then (IpcChannelError.CHANNEL_ALREADY_EXISTS, none)
  else if errnum = EBADF then (IpcChannelError.INVALID_FILE_DESCRIPTOR, none)
  else if errnum = ENOTSOCK then (IpcChannelError.INVALID_FILE_DESCRIPTOR, none)
  else if errnum = EADDRNOTAVAIL then (IpcChannelError.INVALID_CHANNEL_NAME, none)
  else if errnum = EFAULT then (IpcChannelError.INVALID_CHANNEL_NAME, none)
  else if errnum = ELOOP then (IpcChannelError.INVALID_CHANNEL_NAME, none)
  else if errnum = ENAMETOOLONG then (IpcChannelError.INVALID_CHANNEL_NAME, none)
  else if errnum = ENOTDIR then (IpcChannelError.INVALID_CHANNEL_NAME, none)
  else if errnum = ENOENT then (IpcChannelError.NO_SUCH_CHANNEL, none)
  else if errnum = EROFS then (IpcChannelError.INVALID_CHANNEL_NAME, none)
  else if errnum = EIO_errno then (IpcChannelError.I_O_ERROR, none)
  else if errnum = ENOPROTOOPT then (IpcChannelError.INVALID_ARGUMENTS, none)
  else if errnum = ECONNREFUSED then (IpcChannelError.NO_SUCH_CHANNEL, none)
  else if errnum = ECONNRESET then (IpcChannelError.CONNECTION_RESET_BY_PEER, none)
  else if errnum = EWOULDBLOCK then (IpcChannelError.TIMEOUT, none)
  else (IpcChannelError.INTERNAL_LOGIC_ERROR,
    some ("internal logic error in unix domain socket \"" ++ m_name ++ "\" occurred"))

/-- `UnixDomainSocket::isNameValid` (lines 546-549). -/
def isNameValid (cfg : Config) (name : String) : Bool :=
  !(name.isEmpty || decide (name.length < cfg.SHORTEST_VALID_NAME)
      || decide (name.length > cfg.LONGEST_VALID_NAME))

/-- `UnixDomainSocket::closeFd` (lines 166-187). On a successful `close` the
descriptor member becomes `INVALID_FD` and the endpoint is marked not
initialized (the server side additionally unlinks `m_sockAddr.sun_path`, a
filesystem effect outside this state). On failure the state is unchanged and
the translated errno is returned. -/
def closeFd (e : UnixDomainSocket) (closeCall : CallResult Int) :
    UnixDomainSocket × Except IpcChannelError Unit :=
  if hasErrors [] closeCall then
    (e, Except.error (createErrorFromErrnum e.m_name (getErrNum closeCall)).1)
  else
    ({ e with m_sockfd := INVALID_FD, m_isInitialized := false }, Except.ok ())

/-- `UnixDomainSocket::destroy` (lines 189-197): close the descriptor when
initialized, otherwise succeed without doing anything. -/
def destroy (e : UnixDomainSocket) (closeCall : CallResult Int) :
    UnixDomainSocket × Except IpcChannelError Unit :=
  if e.m_isInitialized then closeFd e closeCall else (e, Except.ok ())

/-- `UnixDomainSocket::operator=(UnixDomainSocket&&)` (lines 113-137), which
the move constructor (lines 100-103) delegates to. `self` models the
`this != &other` aliasing test; `closeCall` is the oracle for the `close`
performed by the destination's own `destroy()` (whose error is only logged).
Returns the new (destination, source) pair. -/
def moveAssign (self : Bool) (dst src : UnixDomainSocket)
    (closeCall : CallResult Int) : UnixDomainSocket × UnixDomainSocket :=
  if self then (dst, src)
  else
    let _cleanup := destroy dst closeCall
    ({ m_name := src.m_name
       m_channelSide := src.m_channelSide
       m_sockfd := src.m_sockfd
       m_sockAddrPath := src.m_sockAddrPath
       m_isInitialized := src.m_isInitialized
       m_errorValue := src.m_errorValue
       m_maxMessageSize := src.m_maxMessageSize },
     { src with m_sockfd := INVALID_FD, m_isInitialized := false })

/-- `iox::units::Duration` reduced to the `timeval` it is converted to in
the send/receive paths: (seconds, microseconds). -/
abbrev Duration := Nat × Nat

/-- `units::Duration::fromSeconds`. -/
def Duration.fromSeconds (s : Nat) : Duration := (s, 0)

/-- `UnixDomainSocket::timedSend` (lines 206-267). The two oracles are the
`setsockopt(SO_SNDTIMEO)` call (ignored errno list `{EWOULDBLOCK}`) and the
`sendto` call (no ignored errnos). The timeout is converted to a `timeval`
and handed to the kernel via `setsockopt`; its effect on the call outcome is
part of the oracle. -/
def timedSend (e : UnixDomainSocket) (msg : String) (timeout : Duration)
    (setsockoptCall : CallResult Int) (sendCall : CallResult Int) :
    Except IpcChannelError Unit :=
  let _tv := timeout
  if msg.length ≥ e.m_maxMessageSize then
    Except.error IpcChannelError.MESSAGE_TOO_LONG
  else if e.m_channelSide = IpcChannelSide.SERVER then
    Except.error IpcChannelError.INTERNAL_LOGIC_ERROR
  else if hasErrors [EWOULDBLOCK] setsockoptCall then
    Except.error (createErrorFromErrnum e.m_name (getErrNum setsockoptCall)).1
  else if hasErrors [] sendCall then
    Except.error (createErrorFromErrnum e.m_name (getErrNum sendCall)).1
  else
    Except.ok ()

/-- `UnixDomainSocket::send` (lines 199-204): delegates to `timedSend` with
a zero duration, which turns the send timeout off. -/
def send (e : UnixDomainSocket) (msg : String)
    (setsockoptCall : CallResult Int) (sendCall : CallResult Int) :
    Except IpcChannelError Unit :=
  timedSend e msg (Duration.fromSeconds 0) setsockoptCall sendCall

/-- `UnixDomainSocket::timedReceive` (lines 281-336). Oracles:
`setsockopt(SO_RCVTIMEO)` (ignored `{EWOULDBLOCK}`) and `recvfrom` (ignored
`{EAGAIN}`); a successful `recvfrom` yields the raw bytes written into the
buffer. The code writes a NUL at index `MAX_MESSAGE_SIZE` and builds a
`std::string` from the buffer, so the result is the received bytes truncated
at `MAX_MESSAGE_SIZE` and cut at the first NUL. -/
def timedReceive (cfg : Config) (e : UnixDomainSocket) (timeout : Duration)
    (setsockoptCall : CallResult Int) (recvCall : CallResult String) :
    Except IpcChannelError String :=
  let _tv := timeout
  if e.m_channelSide = IpcChannelSide.CLIENT then
    Except.error IpcChannelError.INTERNAL_LOGIC_ERROR
  else if hasErrors [EWOULDBLOCK] setsockoptCall then
    Except.error (createErrorFromErrnum e.m_name (getErrNum setsockoptCall)).1
  else if hasErrors [EAGAIN] recvCall then
    Except.error (createErrorFromErrnum e.m_name (getErrNum recvCall)).1
  else if getErrNum recvCall = EAGAIN then
    Except.error (createErrorFromErrnum e.m_name (getErrNum recvCall)).1
  else
    Except.ok (((CallResult.valueOr "" recvCall).take cfg.MAX_MESSAGE_SIZE).takeWhile
      (fun c => c != Char.ofNat 0))

/-- `UnixDomainSocket::receive` (lines 269-278): delegates to
`timedReceive` with a zero `timeval` (no timeout). -/
def receive (cfg : Config) (e : UnixDomainSocket)
    (setsockoptCall : CallResult Int) (recvCall : CallResult String) :
    Except IpcChannelError String :=
  timedReceive cfg e (0, 0) setsockoptCall recvCall

/-- The system-call oracles consumed by one run of `createSocket`. -/
structure SysOracle where
  socketCall : CallResult Int
  bindCall : CallResult Int
  connectCall : CallResult Int
  closeCall : CallResult Int
  deriving Repr

/-- `UnixDomainSocket::createSocket` (lines 339-429): fill the address
structure, reject non-blocking mode, create the socket, then bind (server)
or connect (client). The `connect` call ignores errno `ENOENT` in
`hasErrors` and handles it in a separate branch afterwards. Returns the
updated state together with the obtained descriptor or the error. -/
def createSocket (cfg : Config) (e : UnixDomainSocket) (mode : IpcChannelMode)
    (o : SysOracle) : UnixDomainSocket × Except IpcChannelError Int :=
  if e.m_name.length > cfg.SUN_PATH_SIZE - 1 then
    (e, Except.error IpcChannelError.INVALID_CHANNEL_NAME)
  else
    let e := { e with m_sockAddrPath := e.m_name }
    if mode = IpcChannelMode.NON_BLOCKING then
      (e, Except.error IpcChannelError.INVALID_ARGUMENTS)
    else
      match o.socketCall with
      | CallResult.fail en =>
        (e, Except.error (createErrorFromErrnum e.m_name en).1)
      | CallResult.ok sockfd =>
        match e.m_channelSide with
        | IpcChannelSide.SERVER =>
          if hasErrors [] o.bindCall then
            match closeFd e o.closeCall with
            | (e1, Except.error errC) => (e1, Except.error errC)
            | (e1, Except.ok _) =>
              (e1, Except.error (createErrorFromErrnum e1.m_name (getErrNum o.bindCall)).1)
          else
            (e, Except.ok sockfd)
        | IpcChannelSide.CLIENT =>
          if hasErrors [ENOENT] o.connectCall then
            match closeFd e o.closeCall with
            | (e1, Except.error errC) => (e1, Except.error errC)
            | (e1, Except.ok _) =>
              (e1, Except.error (createErrorFromErrnum e1.m_name (getErrNum o.connectCall)).1)
          else if getErrNum o.connectCall = ENOENT then
            match closeFd e o.closeCall with
            | (e1, Except.error errC) => (e1, Except.error errC)
            | (e1, Except.ok _) =>
              (e1, Except.error (createErrorFromErrnum e1.m_name ENOENT).1)
          else
            (e, Except.ok sockfd)

/-- The `UnixDomainSocket(NoPathPrefix_t, ...)` constructor (lines 60-98).
The member defaults (`m_sockfd = INVALID_FD`, `m_maxMessageSize =
MAX_MESSAGE_SIZE`) come from the header, which is not in the excerpt;
modelled from the spec ("descriptor valid iff state = ready",
"max_message_size bounded by a platform maximum"). -/
def construct (cfg : Config) (name : String) (mode : IpcChannelMode)
    (side : IpcChannelSide) (maxMsgSize : Nat) (o : SysOracle) :
    UnixDomainSocket :=
  let e0 : UnixDomainSocket :=
    { m_name := name
      m_channelSide := side
      m_sockfd := INVALID_FD
      m_sockAddrPath := ""
      m_isInitialized := false
      m_errorValue := IpcChannelError.UNDEFINED
      m_maxMessageSize := cfg.MAX_MESSAGE_SIZE }
  if !(isNameValid cfg name) then
    { e0 with m_isInitialized := false
              m_errorValue := IpcChannelError.INVALID_CHANNEL_NAME }
  else if maxMsgSize > cfg.MAX_MESSAGE_SIZE then
    { e0 with m_isInitialized := false
              m_errorValue := IpcChannelError.MAX_MESSAGE_SIZE_EXCEEDED }
  else
    let e1 := { e0 with m_maxMessageSize := maxMsgSize }
    match createSocket cfg e1 mode o with
    | (e2, Except.ok fd) =>
      { e2 with m_isInitialized := true
                m_errorValue := IpcChannelError.UNDEFINED
                m_sockfd := fd }
    | (e2, Except.error err) =>
      { e2 with m_isInitialized := false, m_errorValue := err }

/-- The prefixed `UnixDomainSocket(IpcChannelName_t, ...)` constructor
(lines 37-58): an invalid logical name is forwarded verbatim to the
no-prefix constructor; a valid one is composed as
`UdsName_t(PATH_PREFIX).append(TruncateToCapacity, name)`. -/
def constructPrefixed (cfg : Config) (name : String) (mode : IpcChannelMode)
    (side : IpcChannelSide) (maxMsgSize : Nat) (o : SysOracle) :
    UnixDomainSocket :=
  let udsName :=
    if !(isNameValid cfg name) then name
    else (cfg.pathPrefixStr ++ name).take cfg.UDS_NAME_CAPACITY
  construct cfg udsName mode side maxMsgSize o

/-- `UnixDomainSocket::isOutdated` (lines 431-438). -/
def isOutdated (_e : UnixDomainSocket) : Except IpcChannelError Bool :=
  Except.ok false

/-- The errnos enumerated by the switch in `createErrorFromErrnum` (on
Linux, `EAGAIN` coincides with `EWOULDBLOCK`, so it is covered). -/
def enumeratedErrnos : List Nat :=
  [EACCES, EAFNOSUPPORT, EINVAL, EMFILE, ENFILE, ENOBUFS, ENOMEM,
   EPROTONOSUPPORT, EADDRINUSE, EBADF, ENOTSOCK, EADDRNOTAVAIL, EFAULT,
   ELOOP, ENAMETOOLONG, ENOTDIR, ENOENT, EROFS, EIO_errno, ENOPROTOOPT,
   ECONNREFUSED, ECONNRESET, EWOULDBLOCK]

/-- A sample configuration with a wide name interval, used by witnesses. -/
def cfg0 : Config :=
  { SHORTEST_VALID_NAME := 1
    LONGEST_VALID_NAME := 100
    MAX_MESSAGE_SIZE := 128
    UDS_NAME_CAPACITY := 200
    pathPrefixStr := "/tmp/"
    SUN_PATH_SIZE := 108 }

/-- A sample configuration whose longest valid name (6) is shorter than the
composed prefixed path of a three-letter logical name. -/
def cfg1 : Config :=
  { SHORTEST_VALID_NAME := 1
    LONGEST_VALID_NAME := 6
    MAX_MESSAGE_SIZE := 128
    UDS_NAME_CAPACITY := 200
    pathPrefixStr := "/tmp/"
    SUN_PATH_SIZE := 108 }

/-- A system-call oracle in which every call succeeds. -/
def oracleAllOk : SysOracle :=
  { socketCall := CallResult.ok 3
    bindCall := CallResult.ok 0
    connectCall := CallResult.ok 0
    closeCall := CallResult.ok 0 }

/-- A non-ready (never initialized) server-side endpoint, as produced by the
default constructor (lines 31-35): not initialized, error value
`NOT_INITIALIZED`, invalid descriptor. -/
def uninitServerEndpoint : UnixDomainSocket :=
  { m_name := "/tmp/foo"
    m_channelSide := IpcChannelSide.SERVER
    m_sockfd := INVALID_FD
    m_sockAddrPath := ""
    m_isInitialized := false
    m_errorValue := IpcChannelError.NOT_INITIALIZED
    m_maxMessageSize := 128 }

/-- A ready client endpoint with `m_maxMessageSize = 128`. -/
def readyClient128 : UnixDomainSocket :=
  { m_name := "/tmp/foo"
    m_channelSide := IpcChannelSide.CLIENT
    m_sockfd := 3
    m_sockAddrPath := "/tmp/foo"
    m_isInitialized := true
    m_errorValue := IpcChannelError.UNDEFINED
    m_maxMessageSize := 128 }

/-- A payload of exactly 127 bytes. -/
def msg127 : String := String.mk (List.replicate 127 'a')

/-- C1 (counterexample): a non-ready endpoint on which `timedSend` does not
return `NOT_INITIALIZED`: the send path of the code contains no
initialization check, so the server-role check fires instead and the call
returns `INTERNAL_LOGIC_ERROR`. -/
theorem uninitialized_send_counterexample :
    uninitServerEndpoint.m_isInitialized = false ∧
    timedSend uninitServerEndpoint ("x") (0, 0) (CallResult.ok 0) (CallResult.ok 2)
      = Except.error IpcChannelError.INTERNAL_LOGIC_ERROR ∧
    timedSend uninitServerEndpoint ("x") (0, 0) (CallResult.ok 0) (CallResult.ok 2)
      ≠ Except.error IpcChannelError.NOT_INITIALIZED := by
  refine ⟨rfl, rfl, ?_⟩
  intro h
  exact absurd (Except.error.inj (rfl.trans h)) (by decide)

/-- C1 (amended): the send and receive paths never consult the
initialization flag: `timedSend`, `send`, `timedReceive` and `receive`
return the same result whether or not the endpoint is initialized, applying
the same size/role checks and descriptor operations in either case. -/
theorem send_receive_ignore_initialization (cfg : Config)
    (e : UnixDomainSocket) (b : Bool) (msg : String) (t : Duration)
    (c₁ c₂ : CallResult Int) (r : CallResult String) :
    timedSend { e with m_isInitialized := b } msg t c₁ c₂
      = timedSend e msg t c₁ c₂ ∧
    timedReceive cfg { e with m_isInitialized := b } t c₁ r
      = timedReceive cfg e t c₁ r ∧
    send { e with m_isInitialized := b } msg c₁ c₂ = send e msg c₁ c₂ ∧
    receive cfg { e with m_isInitialized := b } c₁ r = receive cfg e c₁ r :=
  ⟨rfl, rfl, rfl, rfl⟩

set_option maxRecDepth 8000 in
/-- C2 (evaluation at the failing input): on a ready client endpoint with
`m_maxMessageSize = 128`, a 127-byte payload (so `len + 1 = 128`) passes the
size check of `timedSend` and the call succeeds, although the code's own
comment ("message sizes with null termination must be smaller than
m_maxMessageSize") and the spec require `MESSAGE_TOO_LONG` here. -/
theorem timedSend_size_boundary_evaluation :
    msg127.length + 1 = readyClient128.m_maxMessageSize ∧
    readyClient128.m_isInitialized = true ∧
    readyClient128.m_channelSide = IpcChannelSide.CLIENT ∧
    timedSend readyClient128 msg127 (0, 0) (CallResult.ok 0) (CallResult.ok 128)
      = Except.ok () := by
  exact ⟨rfl, rfl, rfl, rfl⟩

/-- C10: `isOutdated` returns success carrying `false` for every endpoint in
every state. -/
theorem isOutdated_always_false (e : UnixDomainSocket) :
    isOutdated e = Except.ok false := rfl

/-- C7: `send` returns exactly the result of `timedSend` with the zero
duration, and `receive` returns exactly the result of `timedReceive` with
the zero duration, for every endpoint, message and system-call outcome. -/
theorem send_receive_delegate_timed (cfg : Config) (e : UnixDomainSocket)
    (msg : String) (c₁ c₂ : CallResult Int) (r : CallResult String) :
    send e msg c₁ c₂ = timedSend e msg (0, 0) c₁ c₂ ∧
    receive cfg e c₁ r = timedReceive cfg e (0, 0) c₁ r :=
  ⟨rfl, rfl⟩

set_option maxHeartbeats 1600000 in
/-- C3: the error translator is a pure function of the errno (its error kind
does not depend on the endpoint name) realizing exactly the spec's table,
and every non-enumerated errno yields `INTERNAL_LOGIC_ERROR` together with a
diagnostic line that names the endpoint. `EAGAIN` equals `EWOULDBLOCK` on
Linux, so it is covered by the `TIMEOUT` case. -/
theorem createErrorFromErrnum_mapping (name : String) :
    (∀ other : String, ∀ n : Nat,
      (createErrorFromErrnum name n).1 = (createErrorFromErrnum other n).1) ∧
    (createErrorFromErrnum name EACCES).1 = IpcChannelError.ACCESS_DENIED ∧
    (createErrorFromErrnum name EAFNOSUPPORT).1 = IpcChannelError.INVALID_ARGUMENTS ∧
    (createErrorFromErrnum name EINVAL).1 = IpcChannelError.INVALID_ARGUMENTS ∧
    (createErrorFromErrnum name EPROTONOSUPPORT).1 = IpcChannelError.INVALID_ARGUMENTS ∧
    (createErrorFromErrnum name ENOPROTOOPT).1 = IpcChannelError.INVALID_ARGUMENTS ∧
    (createErrorFromErrnum name EMFILE).1 = IpcChannelError.PROCESS_LIMIT ∧
    (createErrorFromErrnum name ENFILE).1 = IpcChannelError.SYSTEM_LIMIT ∧
    (createErrorFromErrnum name ENOBUFS).1 = IpcChannelError.OUT_OF_MEMORY ∧
    (createErrorFromErrnum name ENOMEM).1 = IpcChannelError.OUT_OF_MEMORY ∧
    (createErrorFromErrnum name EADDRINUSE).1 = IpcChannelError.CHANNEL_ALREADY_EXISTS ∧
    (createErrorFromErrnum name EBADF).1 = IpcChannelError.INVALID_FILE_DESCRIPTOR ∧
    (createErrorFromErrnum name ENOTSOCK).1 = IpcChannelError.INVALID_FILE_DESCRIPTOR ∧
    (createErrorFromErrnum name EADDRNOTAVAIL).1 = IpcChannelError.INVALID_CHANNEL_NAME ∧
    (createErrorFromErrnum name EFAULT).1 = IpcChannelError.INVALID_CHANNEL_NAME ∧
    (createErrorFromErrnum name ELOOP).1 = IpcChannelError.INVALID_CHANNEL_NAME ∧
    (createErrorFromErrnum name ENAMETOOLONG).1 = IpcChannelError.INVALID_CHANNEL_NAME ∧
    (createErrorFromErrnum name ENOTDIR).1 = IpcChannelError.INVALID_CHANNEL_NAME ∧
    (createErrorFromErrnum name EROFS).1 = IpcChannelError.INVALID_CHANNEL_NAME ∧
    (createErrorFromErrnum name ENOENT).1 = IpcChannelError.NO_SUCH_CHANNEL ∧
    (createErrorFromErrnum name ECONNREFUSED).1 = IpcChannelError.NO_SUCH_CHANNEL ∧
    (createErrorFromErrnum name ECONNRESET).1 = IpcChannelError.CONNECTION_RESET_BY_PEER ∧
    (createErrorFromErrnum name EIO_errno).1 = IpcChannelError.I_O_ERROR ∧
    (createErrorFromErrnum name EWOULDBLOCK).1 = IpcChannelError.TIMEOUT ∧
    (createErrorFromErrnum name EAGAIN).1 = IpcChannelError.TIMEOUT ∧
    (∀ n : Nat, n ∉ enumeratedErrnos →
      (createErrorFromErrnum name n).1 = IpcChannelError.INTERNAL_LOGIC_ERROR ∧
      ∃ s t : String, (createErrorFromErrnum name n).2 = some (s ++ name ++ t)) := by
  refine ⟨?_, rfl, rfl, rfl, rfl, rfl, rfl, rfl, rfl, rfl, rfl, rfl, rfl, rfl,
    rfl, rfl, rfl, rfl, rfl, rfl, rfl, rfl, rfl, rfl, rfl, ?_⟩
  · intro other n
    by_cases g1 : n = EACCES
    · subst g1; rfl
    by_cases g2 : n = EAFNOSUPPORT
    · subst g2; rfl
    by_cases g3 : n = EINVAL
    · subst g3; rfl
    by_cases g4 : n = EMFILE
    · subst g4; rfl
    by_cases g5 : n = ENFILE
    · subst g5; rfl
    by_cases g6 : n = ENOBUFS
    · subst g6; rfl
    by_cases g7 : n = ENOMEM
    · subst g7; rfl
    by_cases g8 : n = EPROTONOSUPPORT
    · subst g8; rfl
    by_cases g9 : n = EADDRINUSE
    · subst g9; rfl
    by_cases g10 : n = EBADF
    · subst g10; rfl
    by_cases g11 : n = ENOTSOCK
    · subst g11; rfl
    by_cases g12 : n = EADDRNOTAVAIL
    · subst g12; rfl
    by_cases g13 : n = EFAULT
    · subst g13; rfl
    by_cases g14 : n = ELOOP
    · subst g14; rfl
    by_cases g15 : n = ENAMETOOLONG
    · subst g15; rfl
    by_cases g16 : n = ENOTDIR
    · subst g16; rfl
    by_cases g17 : n = ENOENT
    · subst g17; rfl
    by_cases g18 : n = EROFS
    · subst g18; rfl
    by_cases g19 : n = EIO_errno
    · subst g19; rfl
    by_cases g20 : n = ENOPROTOOPT
    · subst g20; rfl
    by_cases g21 : n = ECONNREFUSED
    · subst g21; rfl
    by_cases g22 : n = ECONNRESET
    · subst g22; rfl
    by_cases g23 : n = EWOULDBLOCK
    · subst g23; rfl
    unfold createErrorFromErrnum
    rw [if_neg g1, if_neg g2, if_neg g3, if_neg g4, if_neg g5, if_neg g6, if_neg g7, if_neg g8, if_neg g9, if_neg g10, if_neg g11, if_neg g12, if_neg g13, if_neg g14, if_neg g15, if_neg g16, if_neg g17, if_neg g18, if_neg g19, if_neg g20, if_neg g21, if_neg g22, if_neg g23]
    rw [if_neg g1, if_neg g2, if_neg g3, if_neg g4, if_neg g5, if_neg g6, if_neg g7, if_neg g8, if_neg g9, if_neg g10, if_neg g11, if_neg g12, if_neg g13, if_neg g14, if_neg g15, if_neg g16, if_neg g17, if_neg g18, if_neg g19, if_neg g20, if_neg g21, if_neg g22, if_neg g23]
  · intro n hn
    simp only [enumeratedErrnos, List.mem_cons, List.not_mem_nil, or_false,
      not_or] at hn
    obtain ⟨h1, h2, h3, h4, h5, h6, h7, h8, h9, h10, h11, h12, h13, h14, h15,
      h16, h17, h18, h19, h20, h21, h22, h23⟩ := hn
    unfold createErrorFromErrnum
    rw [if_neg h1, if_neg h2, if_neg h3, if_neg h4, if_neg h5, if_neg h6,
      if_neg h7, if_neg h8, if_neg h9, if_neg h10, if_neg h11, if_neg h12,
      if_neg h13, if_neg h14, if_neg h15, if_neg h16, if_neg h17, if_neg h18,
      if_neg h19, if_neg h20, if_neg h21, if_neg h22, if_neg h23]
    exact ⟨rfl, "internal logic error in unix domain socket \"",
      "\" occurred", rfl⟩

/-- C3 witness: the non-enumerated errno 999 translates to
`INTERNAL_LOGIC_ERROR`. -/
theorem createErrorFromErrnum_mapping_witness :
    (999 : Nat) ∉ enumeratedErrnos ∧
    (createErrorFromErrnum ("endpoint") 999).1
      = IpcChannelError.INTERNAL_LOGIC_ERROR := by
  obtain ⟨-, -, -, -, -, -, -, -, -, -, -, -, -, -, -, -, -, -, -, -, -, -,
    -, -, -, hdef⟩ := createErrorFromErrnum_mapping ("endpoint")
  exact ⟨by decide, (hdef 999 (by decide)).1⟩

/-- C4: for a validly-named client construction in blocking mode whose
`connect` fails, the descriptor is closed (the endpoint's descriptor member
is the invalid sentinel) and the endpoint is left uninitialized with the
translated connect errno as `last_error`; in particular errno `ENOENT`
(no server endpoint exists at the bound path) yields `NO_SUCH_CHANNEL`.
The hypotheses fix a successful `socket` call and a successful `close`. -/
theorem construct_client_connect_error (cfg : Config) (name : String)
    (maxMsgSize : Nat) (fd : Int) (en : Nat) (closeRet : Int)
    (hname : isNameValid cfg name = true)
    (hlen : name.length ≤ cfg.SUN_PATH_SIZE - 1)
    (hmms : maxMsgSize ≤ cfg.MAX_MESSAGE_SIZE) :
    construct cfg name IpcChannelMode.BLOCKING IpcChannelSide.CLIENT maxMsgSize
        { socketCall := CallResult.ok fd
          bindCall := CallResult.ok 0
          connectCall := CallResult.fail en
          closeCall := CallResult.ok closeRet } =
      { m_name := name
        m_channelSide := IpcChannelSide.CLIENT
        m_sockfd := INVALID_FD
        m_sockAddrPath := name
        m_isInitialized := false
        m_errorValue := (createErrorFromErrnum name en).1
        m_maxMessageSize := maxMsgSize } ∧
    (en = ENOENT →
      (createErrorFromErrnum name en).1 = IpcChannelError.NO_SUCH_CHANNEL) := by
  constructor
  · by_cases hen : en = ENOENT
    · subst hen
      simp [construct, createSocket, closeFd, hasErrors, getErrNum, hname,
        Nat.not_lt.mpr hmms, Nat.not_lt.mpr hlen]
    · simp [construct, createSocket, closeFd, hasErrors, getErrNum, hname, hen,
        Nat.not_lt.mpr hmms, Nat.not_lt.mpr hlen]
  · intro hen
    subst hen
    rfl

/-- C4 witness: constructing a client named "foo" under `cfg0` when
`connect` reports `ENOENT` yields an uninitialized endpoint holding
`NO_SUCH_CHANNEL` and no descriptor. -/
theorem construct_client_connect_error_witness :
    construct cfg0 ("foo") IpcChannelMode.BLOCKING IpcChannelSide.CLIENT 128
        { socketCall := CallResult.ok 3
          bindCall := CallResult.ok 0
          connectCall := CallResult.fail ENOENT
          closeCall := CallResult.ok 0 } =
      { m_name := "foo"
        m_channelSide := IpcChannelSide.CLIENT
        m_sockfd := INVALID_FD
        m_sockAddrPath := "foo"
        m_isInitialized := false
        m_errorValue := IpcChannelError.NO_SUCH_CHANNEL
        m_maxMessageSize := 128 } := by
  have h := construct_client_connect_error cfg0 ("foo") 128 3 ENOENT 0
    (by decide) (by decide) (by decide)
  rw [h.1, h.2 rfl]

/-- C5: after a move assignment (to which move construction delegates) from
a ready source, the source is no longer initialized and holds the invalid
descriptor sentinel, while the destination holds the source's former
descriptor, name, role and initialization state (and error value); a
self-move changes nothing. -/
theorem moveAssign_transfer (dst src : UnixDomainSocket) (c : CallResult Int)
    (_hready : src.m_isInitialized = true) :
    (moveAssign false dst src c).2.m_isInitialized = false ∧
    (moveAssign false dst src c).2.m_sockfd = INVALID_FD ∧
    (moveAssign false dst src c).1.m_sockfd = src.m_sockfd ∧
    (moveAssign false dst src c).1.m_name = src.m_name ∧
    (moveAssign false dst src c).1.m_channelSide = src.m_channelSide ∧
    (moveAssign false dst src c).1.m_isInitialized = src.m_isInitialized ∧
    (moveAssign false dst src c).1.m_errorValue = src.m_errorValue ∧
    (∀ e : UnixDomainSocket, ∀ d : CallResult Int,
      moveAssign true e e d = (e, e)) :=
  ⟨rfl, rfl, rfl, rfl, rfl, rfl, rfl, fun _ _ => rfl⟩

/-- C5 witness: moving out of the ready client endpoint leaves it
uninitialized with the invalid descriptor, and the destination receives
its descriptor. -/
theorem moveAssign_transfer_witness :
    (moveAssign false uninitServerEndpoint readyClient128
        (CallResult.ok 0)).2.m_isInitialized = false ∧
    (moveAssign false uninitServerEndpoint readyClient128
        (CallResult.ok 0)).2.m_sockfd = INVALID_FD ∧
    (moveAssign false uninitServerEndpoint readyClient128
        (CallResult.ok 0)).1.m_sockfd = readyClient128.m_sockfd := by
  have h := moveAssign_transfer uninitServerEndpoint readyClient128
    (CallResult.ok 0) rfl
  exact ⟨h.1, h.2.1, h.2.2.1⟩

/-- C6: destroy is idempotent. If a destroy call succeeded, a second destroy
call (with any close outcome) is a no-op returning success and leaving the
state unchanged; destroying an endpoint that is not initialized is likewise
a no-op success. -/
theorem destroy_idempotent (e : UnixDomainSocket) (c d : CallResult Int)
    (h : (destroy e c).2 = Except.ok ()) :
    destroy (destroy e c).1 d = ((destroy e c).1, Except.ok ()) ∧
    (e.m_isInitialized = false → destroy e c = (e, Except.ok ())) := by
  constructor
  · cases hinit : e.m_isInitialized
    · simp [destroy, hinit]
    · cases c with
      | ok v => simp [destroy, closeFd, hasErrors, hinit]
      | fail en => simp [destroy, closeFd, hasErrors, hinit] at h
  · intro h0
    simp [destroy, h0]

/-- C6 witness: destroying the ready client endpoint successfully, then
destroying again (even with a failing close oracle), is a no-op success. -/
theorem destroy_idempotent_witness :
    destroy (destroy readyClient128 (CallResult.ok 0)).1 (CallResult.fail 9) =
      ((destroy readyClient128 (CallResult.ok 0)).1, Except.ok ()) :=
  (destroy_idempotent readyClient128 (CallResult.ok 0)
    (CallResult.fail 9) rfl).1

/-- C8: `isNameValid` returns true iff the name's length lies in the closed
interval from `SHORTEST_VALID_NAME` to `LONGEST_VALID_NAME` and the name is
not empty, and construction (with or without path prefix) with an invalid
name leaves the endpoint uninitialized with `INVALID_CHANNEL_NAME`, with no
other effect (the result does not depend on the system-call oracle). -/
theorem isNameValid_interval_and_construct (cfg : Config) (name : String)
    (mode : IpcChannelMode) (side : IpcChannelSide) (mms : Nat)
    (o : SysOracle) :
    (isNameValid cfg name = true ↔
      (name.isEmpty = false ∧ cfg.SHORTEST_VALID_NAME ≤ name.length ∧
        name.length ≤ cfg.LONGEST_VALID_NAME)) ∧
    (isNameValid cfg name = false →
      construct cfg name mode side mms o =
        { m_name := name
          m_channelSide := side
          m_sockfd := INVALID_FD
          m_sockAddrPath := ""
          m_isInitialized := false
          m_errorValue := IpcChannelError.INVALID_CHANNEL_NAME
          m_maxMessageSize := cfg.MAX_MESSAGE_SIZE } ∧
      constructPrefixed cfg name mode side mms o =
        { m_name := name
          m_channelSide := side
          m_sockfd := INVALID_FD
          m_sockAddrPath := ""
          m_isInitialized := false
          m_errorValue := IpcChannelError.INVALID_CHANNEL_NAME
          m_maxMessageSize := cfg.MAX_MESSAGE_SIZE }) := by
  constructor
  · simp [isNameValid, not_lt, and_assoc]
  · intro h
    constructor
    · simp [construct, h]
    · simp [constructPrefixed, construct, h]

/-- C8 witness: the empty name is invalid under `cfg0` and constructing
with it records `INVALID_CHANNEL_NAME` on an uninitialized endpoint. -/
theorem isNameValid_interval_and_construct_witness :
    isNameValid cfg0 ("") = false ∧
    (construct cfg0 ("") IpcChannelMode.BLOCKING IpcChannelSide.CLIENT 128
        oracleAllOk).m_errorValue = IpcChannelError.INVALID_CHANNEL_NAME ∧
    (construct cfg0 ("") IpcChannelMode.BLOCKING IpcChannelSide.CLIENT 128
        oracleAllOk).m_isInitialized = false := by
  have h := (isNameValid_interval_and_construct cfg0 ("")
    IpcChannelMode.BLOCKING IpcChannelSide.CLIENT 128 oracleAllOk).2
    (by decide)
  refine ⟨by decide, ?_, ?_⟩ <;> rw [h.1]

/-- C9: in the prefixed construction variant, a logical name that passes
validation is composed into `PATH_PREFIX + name` (truncated to the name
type's capacity) and that composed path is validated a second time, so
whenever the composed path is longer than `LONGEST_VALID_NAME` the
construction fails with `INVALID_CHANNEL_NAME` even though the logical name
alone is valid. -/
theorem constructPrefixed_double_validation (cfg : Config) (name : String)
    (mode : IpcChannelMode) (side : IpcChannelSide) (mms : Nat)
    (o : SysOracle)
    (h1 : isNameValid cfg name = true)
    (h2 : ((cfg.pathPrefixStr ++ name).take cfg.UDS_NAME_CAPACITY).length
      > cfg.LONGEST_VALID_NAME) :
    constructPrefixed cfg name mode side mms o =
      { m_name := (cfg.pathPrefixStr ++ name).take cfg.UDS_NAME_CAPACITY
        m_channelSide := side
        m_sockfd := INVALID_FD
        m_sockAddrPath := ""
        m_isInitialized := false
        m_errorValue := IpcChannelError.INVALID_CHANNEL_NAME
        m_maxMessageSize := cfg.MAX_MESSAGE_SIZE } := by
  have hv : isNameValid cfg
      ((cfg.pathPrefixStr ++ name).take cfg.UDS_NAME_CAPACITY) = false := by
    simp [isNameValid, h2]
  simp [constructPrefixed, construct, h1, hv]

set_option maxRecDepth 4000 in
/-- C9 witness: under `cfg1` (longest valid name 6) the logical name "foo"
is valid, but the composed path "/tmp/foo" has length 8 > 6, so the prefixed
construction fails with `INVALID_CHANNEL_NAME`. -/
theorem constructPrefixed_double_validation_witness :
    isNameValid cfg1 ("foo") = true ∧
    constructPrefixed cfg1 ("foo") IpcChannelMode.BLOCKING
        IpcChannelSide.CLIENT 128 oracleAllOk =
      { m_name := "/tmp/foo"
        m_channelSide := IpcChannelSide.CLIENT
        m_sockfd := INVALID_FD
        m_sockAddrPath := ""
        m_isInitialized := false
        m_errorValue := IpcChannelError.INVALID_CHANNEL_NAME
        m_maxMessageSize := 128 } := by
  have h := constructPrefixed_double_validation cfg1 ("foo")
    IpcChannelMode.BLOCKING IpcChannelSide.CLIENT 128 oracleAllOk
    (by decide) (by decide)
  exact ⟨by decide, h⟩
